import Mathlib

/-!
Shallow embedding of the WixMysql adapter (server.js and the queryExecutor /
second server tree in part_000): JavaScript values, the mysql2 `escapeId`
identifier escaper, the SQL builders of the CRUD request handlers, the
MySQL-type → Wix-type schema mapper, the schemas/find handler loop and the
query executor's connection lifecycle.
-/

namespace WixMysql

/-- A JavaScript value, as far as the handlers inspect one: `undefined`,
`null`, booleans, numbers (modelled as integers), strings and arrays. -/
inductive JsValue where
  | undefined
  | null
  | bool (b : Bool)
  | num (n : Int)
  | str (s : String)
  | arr (elems : List JsValue)

/-- JavaScript strict equality `v === 's'` between an arbitrary value and a
string literal: true exactly for the equal string. -/
def isStrEq (v : JsValue) (s : String) : Bool :=
  match v with
  | .str t => t == s
  | _ => false

/-- JavaScript truthiness for the values above (`if (x)`); an array is
always truthy, a number is truthy when nonzero, a string when nonempty. -/
def truthy : JsValue → Bool
  | .undefined => false
  | .null => false
  | .bool b => b
  | .num n => n != 0
  | .str s => s != ""
  | .arr _ => true

/-- `typeof x === 'number'` for the values above. -/
def isNumber : JsValue → Bool
  | .num _ => true
  | _ => false

/-- `Array.prototype.join(sep)`: empty list gives the empty string. -/
def joinSep (sep : String) : List String → String
  | [] => ""
  | [x] => x
  | x :: xs => x ++ sep ++ joinSep sep xs

/-- One character of mysql2's `escapeId`: a backtick becomes two backticks,
a dot becomes a backtick-quoted dot, anything else is kept. -/
def escIdChar (c : Char) : String :=
  if c = '`' then "``" else if c = '.' then "`.`" else String.singleton c

/-- mysql2 / sqlstring `escapeId` on a plain string identifier: wrap in
backticks, doubling inner backticks and splitting on dots. -/
def escapeId (s : String) : String :=
  "`" ++ String.join (s.toList.map escIdChar) ++ "`"

/-- A JavaScript object as the handlers see one: an association list of
property name and value, in insertion order (`Object.entries` order). -/
abbrev JsObject := List (String × JsValue)

/-- `Object.keys`. -/
def objKeys (o : JsObject) : List String := o.map Prod.fst

/-- `Object.values`. -/
def objValues (o : JsObject) : List JsValue := o.map Prod.snd

/-- Property read `o.k`: the first entry with that name, `undefined` when
absent. -/
def getProp (o : JsObject) (k : String) : JsValue :=
  match o.find? (fun kv => kv.1 == k) with
  | some kv => kv.2
  | none => .undefined

/-- `Object.keys(o).indexOf(k)`: index of the first entry named `k`
(`o.length` standing in for JavaScript's `-1` when absent). -/
def keyIndex (o : JsObject) (k : String) : Nat :=
  o.findIdx (fun kv => kv.1 == k)

end WixMysql

namespace WixMysql

/-- A sort entry `{fieldName, order}` of a data/find request; `order` is an
arbitrary JavaScript value compared against the string `'ASC'`. -/
structure SortEntry where
  fieldName : String
  order : JsValue

/-- One ORDER BY token: `` `field` ASC `` exactly when `order === 'ASC'`,
`` `field` DESC `` otherwise (server.js line 355). -/
def sortToken (e : SortEntry) : String :=
  escapeId e.fieldName ++ " " ++ (if isStrEq e.order "ASC" then "ASC" else "DESC")

/-- The ORDER BY suffix of data/find: appended only when `sort` is present
and nonempty (server.js lines 352-358). -/
def sortClause (sort : Option (List SortEntry)) : String :=
  match sort with
  | some s => if s.length > 0 then " ORDER BY " ++ joinSep ", " (s.map sortToken) else ""
  | none => ""

/-- The flat-filter WHERE suffix shared by data/find (server.js lines
343-349) and data/count (lines 236-242): one `` `key` = ? `` per entry
joined by AND, values pushed in entry order; skipped when the filter is
absent or has no keys. -/
def flatFilterClause (filter : Option JsObject) : String × List JsValue :=
  match filter with
  | some f =>
      if f.length > 0 then
        (" WHERE " ++ joinSep " AND " (f.map (fun kv => escapeId kv.1 ++ " = ?")), objValues f)
      else ("", [])
  | none => ("", [])

/-- SQL and params of a data/find request (server.js handler, lines
325-364) before the pagination step: base SELECT, flat filter, sort. -/
def dataFindFlatCore (collectionName : String) (filter : Option JsObject)
    (sort : Option (List SortEntry)) : String × List JsValue :=
  let w := flatFilterClause filter
  ("SELECT * FROM " ++ escapeId collectionName ++ w.1 ++ sortClause sort, w.2)

/-- The pagination step shared by both data/find handlers: ` LIMIT ?, ?`
with `skip, limit` pushed, exactly when both are numbers. -/
def applyPagination (core : String × List JsValue) (skip limit : JsValue) :
    String × List JsValue :=
  if isNumber skip && isNumber limit then
    (core.1 ++ " LIMIT ?, ?", core.2 ++ [skip, limit])
  else core

/-- The data/find handler of server.js (flat filter variant), up to the SQL
statement it hands to executeQuery: validation of the collection name, then
base query, flat filter, sort, pagination. -/
def dataFindFlatQuery (collectionName : String) (filter : Option JsObject)
    (sort : Option (List SortEntry)) (skip limit : JsValue) :
    Except String (String × List JsValue) :=
  if collectionName = "" then .error "Nome da coleção é obrigatório"
  else .ok (applyPagination (dataFindFlatCore collectionName filter sort) skip limit)

/-- The data/count handler (server.js lines 218-245), up to the SQL
statement it hands to executeQuery. -/
def dataCountQuery (collectionName : String) (filter : Option JsObject) :
    Except String (String × List JsValue) :=
  if collectionName = "" then .error "Nome da coleção é obrigatório"
  else
    let w := flatFilterClause filter
    .ok ("SELECT COUNT(*) AS totalCount FROM " ++ escapeId collectionName ++ w.1, w.2)

/-- The items/find handler (server.js lines 184-210), up to the SQL
statement: a present filter always appends WHERE (even when empty), limit
and offset are appended on truthiness, with their values as params. -/
def itemsFindQuery (table : String) (filter : Option JsObject)
    (limit offset : JsValue) : String × List JsValue :=
  let sql0 := "SELECT * FROM " ++ escapeId table
  let s1 :=
    match filter with
    | some f =>
        (sql0 ++ " WHERE " ++ joinSep " AND " (f.map (fun kv => escapeId kv.1 ++ " = ?")),
         objValues f)
    | none => (sql0, [])
  let s2 := if truthy limit then (s1.1 ++ " LIMIT ?", s1.2 ++ [limit]) else s1
  if truthy offset then (s2.1 ++ " OFFSET ?", s2.2 ++ [offset]) else s2

/-- The data/insert handler (server.js lines 273-309), up to the SQL
statement: escaped field names, one `?` per field, values in the same
iteration order. -/
def dataInsertQuery (collectionName : String) (payload : JsObject) :
    Except String (String × List JsValue) :=
  if collectionName = "" then
    .error "Nome da coleção é obrigatório e deve ser uma string."
  else if payload.length = 0 then
    .error "Os dados a serem inseridos são obrigatórios e devem ser um objeto não vazio."
  else
    let fields := payload.map (fun kv => escapeId kv.1)
    let placeholders := payload.map (fun _ => "?")
    let values := objValues payload
    .ok ("INSERT INTO " ++ escapeId collectionName ++ " (" ++ joinSep ", " fields ++
           ") VALUES (" ++ joinSep ", " placeholders ++ ")", values)

/-- The data/update handler (part_000 lines 439-473), up to the SQL
statement: `_id` is dropped from the SET list, the remaining values are the
params (value at the `_id` key position erased) with the `_id` value
appended last for the WHERE clause; an empty SET list is a validation
error. -/
def dataUpdateQuery (collectionName : String) (item : JsObject) :
    Except String (String × List JsValue) :=
  if collectionName = "" then .error "Nome da coleção é obrigatório"
  else if !truthy (getProp item "_id") then .error "Item inválido ou ID ausente"
  else
    let updateFields :=
      joinSep ", " (((objKeys item).filter (fun k => k != "_id")).map
        (fun k => escapeId k ++ " = ?"))
    if updateFields = "" then .error "Nenhum campo para atualizar"
    else
      let params := (objValues item).eraseIdx (keyIndex item "_id") ++ [getProp item "_id"]
      .ok ("UPDATE " ++ escapeId collectionName ++ " SET " ++ updateFields ++
             " WHERE _id = ?", params)

/-- The data/remove handler (part_000 lines 488-513), up to the SQL
statement. -/
def dataRemoveQuery (collectionName : String) (itemId : JsValue) :
    Except String (String × List JsValue) :=
  if collectionName = "" then .error "Nome da coleção é obrigatório"
  else if !truthy itemId then .error "ID do item é obrigatório"
  else .ok ("DELETE FROM " ++ escapeId collectionName ++ " WHERE _id = ?", [itemId])

/-- A structured data/find filter `{operator, fieldName, value}` as the
part_000 data/find handler destructures it. -/
structure StructuredFilter where
  operator : JsValue
  fieldName : String
  value : JsValue

/-- SQL and params of the part_000 data/find handler (lines 356-399) before
the pagination step: structured filter (`$eq` / `$hasSome` only, others
rejected), then sort. -/
def dataFindStructuredCore (collectionName : String)
    (filter : Option StructuredFilter) (sort : Option (List SortEntry)) :
    Except String (String × List JsValue) :=
  let sql0 := "SELECT * FROM " ++ escapeId collectionName
  match filter with
  | none => .ok (sql0 ++ sortClause sort, [])
  | some f =>
      if !isStrEq f.operator "$hasSome" && !isStrEq f.operator "$eq" then
        .error "Operador de filtro inválido"
      else if isStrEq f.operator "$hasSome" then
        match f.value with
        | .arr vs =>
            let placeholders := joinSep "," (vs.map (fun _ => "?"))
            .ok (sql0 ++ " WHERE " ++ escapeId f.fieldName ++ " IN (" ++ placeholders ++ ")" ++
                   sortClause sort, vs)
        | _ => .error "O valor do filtro deve ser um array para o operador $hasSome"
      else
        .ok (sql0 ++ " WHERE " ++ escapeId f.fieldName ++ " = ?" ++ sortClause sort, [f.value])

/-- The part_000 data/find handler (structured filter variant), up to the
SQL statement it hands to executeQuery. -/
def dataFindStructuredQuery (collectionName : String)
    (filter : Option StructuredFilter) (sort : Option (List SortEntry))
    (skip limit : JsValue) : Except String (String × List JsValue) :=
  if collectionName = "" then .error "Nome da coleção é obrigatório"
  else
    match dataFindStructuredCore collectionName filter sort with
    | .error e => .error e
    | .ok core => .ok (applyPagination core skip limit)

/-- `pat` begins the character list `s`. -/
def hasPre : List Char → List Char → Bool
  | [], _ => true
  | _ :: _, [] => false
  | a :: as, b :: bs => a == b && hasPre as bs

/-- `pat` occurs as a contiguous run somewhere in `s`. -/
def hasSub (s pat : List Char) : Bool :=
  match s with
  | [] => hasPre pat []
  | _ :: rest => hasPre pat s || hasSub rest pat

/-- JavaScript `String.prototype.includes`: substring containment. -/
def strIncludes (s pat : String) : Bool :=
  hasSub s.toList pat.toList

/-- JavaScript `String.prototype.toLowerCase` restricted to ASCII, all the
handlers feed it (MySQL type names). -/
def lowerCase (s : String) : String :=
  String.mk (s.toList.map Char.toLower)

/-- The effective `mapMySQLTypeToWixType` of server.js (the second
declaration, lines 485-501, which shadows the first): lower-case the native
type, then classify by substring in source order. -/
def mapMySQLTypeToWixType (mysqlType : String) : String :=
  let t := lowerCase mysqlType
  if strIncludes t "int" then "number"
  else if strIncludes t "varchar" || strIncludes t "text" || strIncludes t "char" then "text"
  else if strIncludes t "date" || strIncludes t "time" || strIncludes t "datetime" then "datetime"
  else if strIncludes t "float" || strIncludes t "double" || strIncludes t "decimal" then "number"
  else if strIncludes t "bool" then "boolean"
  else "any"

/-- One row of a MySQL `DESCRIBE` result, the fields the handlers read
(`Type` is spelled `Typ`: `Type` is reserved in Lean). -/
structure ColumnDesc where
  Field : String
  Typ : String
  Null : String
  Key : String

/-- A Wix field schema as the schemas/list handler emits it. -/
structure FieldSchema where
  displayName : String
  type : String
  required : Bool
  unique : Bool
  queryOperators : List String

/-- The per-type query-operator list of the schemas/list handler
(server.js lines 439-448). -/
def listQueryOperators (fieldType : String) : List String :=
  if fieldType == "text" then
    ["eq", "lt", "gt", "hasSome", "and", "lte", "gte", "or", "not", "ne",
     "startsWith", "endsWith"]
  else
    ["eq", "lt", "gt", "hasSome", "and", "lte", "gte", "or", "not", "ne"]

/-- The per-column field mapping of the schemas/list handler (server.js
lines 432-460): type via `mapMySQLTypeToWixType`, `required` from
`Null === 'NO'`, `unique` from a PRI or UNI key, the field renamed to `_id`
when it is the primary key. -/
def mapColumnToField (column : ColumnDesc) : String × FieldSchema :=
  let fieldName := column.Field
  let fieldType := mapMySQLTypeToWixType column.Typ
  let isRequired := column.Null == "NO"
  let isUnique := column.Key == "PRI" || column.Key == "UNI"
  let finalFieldName := if column.Key == "PRI" then "_id" else fieldName
  (finalFieldName,
   { displayName := fieldName, type := fieldType, required := isRequired,
     unique := isUnique, queryOperators := listQueryOperators fieldType })

/-- What one `executeQuery` call resolves to when it does not throw: a row
array (SELECT / DESCRIBE) or a non-array result packet (DDL/DML). -/
inductive QueryResult where
  | rows (cols : List ColumnDesc)
  | okPacket

/-- A DESCRIBE oracle: the statement outcome `executeQuery` produces for a
given table name — `.error` models a thrown statement error (mysql2 rejects
`DESCRIBE` of a missing table with ER_NO_SUCH_TABLE, and `executeQuery`
re-throws it), `.ok` a resolved result. -/
abbrev DescribeOracle := String → Except String QueryResult

/-- A collection schema as the schemas/find handler emits it (fields held
as an insertion-ordered name/value list). -/
structure CollectionSchema where
  displayName : String
  id : String

/-- The per-table loop of the schemas/find handler (server.js lines
110-163): DESCRIBE each named table; a non-array result is skipped with
`continue`; a thrown statement error escapes the loop (there is no
per-iteration catch). -/
def schemasFindLoop (describe : DescribeOracle) :
    List String → List CollectionSchema → Except String (List CollectionSchema)
  | [], schemas => .ok schemas
  | table :: rest, schemas =>
      match describe table with
      | .error e => .error e
      | .ok .okPacket => schemasFindLoop describe rest schemas
      | .ok (.rows _) =>
          schemasFindLoop describe rest (schemas ++ [{ displayName := table, id := table }])

/-- An HTTP response as the handlers produce one: a status code plus either
a schemas body or an error body. -/
inductive SchemasResponse where
  | ok (schemas : List CollectionSchema)
  | badRequest (msg : String)
  | internalError (msg : String)

/-- The schemas/find handler (server.js lines 98-171): validate
`schemaIds`, run the DESCRIBE loop, and let any thrown error fall to the
outer catch, which answers 500. -/
def schemasFindHandler (describe : DescribeOracle) (schemaIds : List String) :
    SchemasResponse :=
  if schemaIds.length = 0 then .badRequest "Lista de schemaIds não fornecida ou vazia"
  else
    match schemasFindLoop describe schemaIds [] with
    | .ok schemas => .ok schemas
    | .error _ => .internalError "Erro interno do servidor"

/-- The three effects one `executeQuery` call depends on: connection
acquisition, the statement itself (`none` rows models a falsy resolution,
turned into `[]` by `rows || []`), and `connection.end()`. -/
structure DbEnv where
  acquire : Except String Unit
  exec : Except String (Option (List JsValue))
  release : Except String Unit

/-- Outcome of one `executeQuery` call: what the caller sees, and whether
`connection.end()` was invoked. -/
structure ExecTrace where
  result : Except String (List JsValue)
  released : Bool

/-- The `finally` block of `executeQuery` (part_000 lines 20-29): `some e`
would be an error escaping the block (which JavaScript lets replace the
function's outcome); the inner try/catch only logs, so no error escapes. -/
def releaseOutcome (release : Except String Unit) : Option String :=
  match release with
  | .error _ => none
  | .ok _ => none

/-- `executeQuery` (part_000 lines 3-30): acquire a connection, run the
statement, return `rows || []` or re-throw the statement error; the
`finally` block always runs `connection.end()` when a connection was
acquired, and an error escaping the `finally` would replace the outcome. -/
def executeQuery (env : DbEnv) : ExecTrace :=
  match env.acquire with
  | .error e => { result := .error e, released := false }
  | .ok _ =>
      let body : Except String (List JsValue) :=
        match env.exec with
        | .error e => .error e
        | .ok r => .ok (r.getD [])
      match releaseOutcome env.release with
      | some e => { result := .error e, released := true }
      | none => { result := body, released := true }

end WixMysql

namespace WixMysql

/-! Helper lemmas about the embedding. -/

/-- The SQL text of a builder outcome, when the request was not rejected. -/
def sqlOf : Except String (String × List JsValue) → Option String
  | .ok p => some p.1
  | .error _ => none

/-- The positional parameter list of a builder outcome, when the request
was not rejected. -/
def paramsOf : Except String (String × List JsValue) → Option (List JsValue)
  | .ok p => some p.2
  | .error _ => none

/-- Two objects with the same keys give the same per-entry key image. -/
lemma map_key_eq {α : Type} (F : String → α) {f g : JsObject}
    (h : objKeys f = objKeys g) :
    f.map (fun kv => F kv.1) = g.map (fun kv => F kv.1) := by
  have h2 : (objKeys f).map F = (objKeys g).map F := by rw [h]
  simpa [objKeys, List.map_map, Function.comp] using h2

/-- Two objects with the same keys have the same number of entries. -/
lemma length_eq_of_keys_eq {f g : JsObject} (h : objKeys f = objKeys g) :
    f.length = g.length := by
  have h2 := congrArg List.length h
  simpa [objKeys] using h2

/-- `join` of a nonempty list whose head is nonempty is nonempty. -/
lemma joinSep_cons_ne_empty (sep x : String) (xs : List String)
    (hx : 0 < x.length) : joinSep sep (x :: xs) ≠ "" := by
  intro h
  have hlen := congrArg String.length h
  cases xs with
  | nil => simp [joinSep] at hlen; omega
  | cons y ys => simp [joinSep, String.length_append] at hlen; omega

/-- `hasPre` detects exactly the lists that start with the pattern. -/
lemma hasPre_iff (p s : List Char) : hasPre p s = true ↔ ∃ t, s = p ++ t := by
  induction p generalizing s with
  | nil => simp [hasPre]
  | cons a as ih =>
    cases s with
    | nil => simp [hasPre]
    | cons b bs =>
      simp only [hasPre, Bool.and_eq_true, beq_iff_eq, ih, List.cons_append]
      constructor
      · rintro ⟨hab, t, ht⟩
        exact ⟨t, by rw [hab, ht]⟩
      · rintro ⟨t, ht⟩
        injection ht with h1 h2
        exact ⟨h1.symm, t, h2⟩

/-- `hasSub` detects exactly the lists containing the pattern as a
contiguous run. -/
lemma hasSub_iff (s p : List Char) : hasSub s p = true ↔ ∃ a b, s = a ++ p ++ b := by
  induction s with
  | nil =>
    simp only [hasSub, hasPre_iff]
    constructor
    · rintro ⟨t, ht⟩
      rcases List.append_eq_nil.mp ht.symm with ⟨hp, htnil⟩
      exact ⟨[], [], by simp [hp]⟩
    · rintro ⟨a, b, h⟩
      rcases List.append_eq_nil.mp h.symm with ⟨h1, hb⟩
      rcases List.append_eq_nil.mp h1 with ⟨ha, hp⟩
      exact ⟨[], by simp [hp]⟩
  | cons c rest ih =>
    simp only [hasSub, Bool.or_eq_true, hasPre_iff, ih]
    constructor
    · rintro (⟨t, ht⟩ | ⟨a, b, h⟩)
      · exact ⟨[], t, by simpa using ht⟩
      · exact ⟨c :: a, b, by simp [h]⟩
    · rintro ⟨a, b, h⟩
      cases a with
      | nil => exact Or.inl ⟨b, by simpa using h⟩
      | cons x xs =>
        injection h with h1 h2
        exact Or.inr ⟨xs, b, h2⟩

/-- A string containing `datetime` also contains `time`. -/
lemma strIncludes_time_of_datetime (t : String)
    (h : strIncludes t "datetime" = true) : strIncludes t "time" = true := by
  unfold strIncludes at h ⊢
  rw [hasSub_iff] at h ⊢
  obtain ⟨a, b, hab⟩ := h
  have hsplit : ("datetime".toList : List Char) = "date".toList ++ "time".toList := by
    decide
  exact ⟨a ++ "date".toList, b, by rw [hab, hsplit]; simp⟩

/-- Erasing the value at the `_id` key position is the same as keeping the
values of the non-`_id` entries, provided keys are unique (as they are in a
JavaScript object). -/
lemma eraseIdx_keyIndex (item : JsObject) (hnd : (objKeys item).Nodup) :
    (objValues item).eraseIdx (keyIndex item "_id") =
      objValues (item.filter (fun kv => kv.1 != "_id")) := by
  induction item with
  | nil => simp [objValues, keyIndex]
  | cons kv rest ih =>
    have hnd' : (objKeys rest).Nodup := (List.nodup_cons.mp hnd).2
    by_cases hk : kv.1 = "_id"
    · have hnotin : "_id" ∉ objKeys rest := by
        have := (List.nodup_cons.mp hnd).1
        rwa [hk] at this
      have hfilter : rest.filter (fun kv => kv.1 != "_id") = rest := by
        rw [List.filter_eq_self]
        intro a ha
        have hmem : a.1 ∈ objKeys rest := List.mem_map_of_mem Prod.fst ha
        simp only [bne_iff_ne, ne_eq]
        intro hcontra
        exact hnotin (hcontra ▸ hmem)
      simp [objValues, keyIndex, List.findIdx_cons, hk, hfilter, List.filter_cons]
    · have hfirst : (fun kv : String × JsValue => kv.1 == "_id") kv = false := by
        simpa using hk
      simp only [objValues, keyIndex, List.findIdx_cons, hfirst, List.map_cons,
        List.filter_cons, cond_false, List.eraseIdx_cons_succ]
      have hkeep : (kv.1 != "_id") = true := by simpa using hk
      rw [hkeep]
      simpa [objValues, keyIndex] using ih hnd'

end WixMysql

namespace WixMysql

/-- C3, counterexample: insert of `{name:"a", age:5}` into table `t` does
not produce the literal SQL `INSERT INTO t (name, age) VALUES (?, ?)` — the
handler passes the table and field names through `escapeId`, so they carry
backticks. -/
theorem spec_C3_cex :
    dataInsertQuery "t" [("name", JsValue.str "a"), ("age", JsValue.num 5)] ≠
      Except.ok ("INSERT INTO t (name, age) VALUES (?, ?)",
        [JsValue.str "a", JsValue.num 5]) := by
  intro h
  have h1 : sqlOf (dataInsertQuery "t" [("name", JsValue.str "a"), ("age", JsValue.num 5)]) =
      some "INSERT INTO t (name, age) VALUES (?, ?)" := by rw [h]; rfl
  have h2 : sqlOf (dataInsertQuery "t" [("name", JsValue.str "a"), ("age", JsValue.num 5)]) =
      some "INSERT INTO `t` (`name`, `age`) VALUES (?, ?)" := rfl
  rw [h2] at h1
  exact absurd (Option.some.inj h1) (by decide)

/-- C3, amended: for every non-empty payload, the field-name list, the
placeholder list and the value list of insert are maps over the same
payload traversal, so they line up positionally; insert of
`{name:"a", age:5}` into `t` yields
`` INSERT INTO `t` (`name`, `age`) VALUES (?, ?) `` (identifiers
backtick-escaped) with params `["a", 5]` in that order. -/
theorem spec_C3 (collectionName : String) (payload : JsObject)
    (hc : collectionName ≠ "") (hp : payload ≠ []) :
    dataInsertQuery collectionName payload =
      .ok ("INSERT INTO " ++ escapeId collectionName ++ " (" ++
             joinSep ", " (payload.map (fun kv => escapeId kv.1)) ++ ") VALUES (" ++
             joinSep ", " (payload.map (fun _ => "?")) ++ ")",
           payload.map Prod.snd) ∧
    (payload.map (fun kv => escapeId kv.1)).length = (payload.map Prod.snd).length ∧
    dataInsertQuery "t" [("name", JsValue.str "a"), ("age", JsValue.num 5)] =
      .ok ("INSERT INTO `t` (`name`, `age`) VALUES (?, ?)",
           [JsValue.str "a", JsValue.num 5]) := by
  refine ⟨?_, by simp, rfl⟩
  have hlen : payload.length ≠ 0 := by
    simpa [List.length_eq_zero] using hp
  simp [dataInsertQuery, hc, hlen, objValues]

/-- C3, witness for the amended theorem at payload `{name:"a", age:5}`,
table `t`. -/
theorem spec_C3_witness :
    dataInsertQuery "t" [("name", JsValue.str "a"), ("age", JsValue.num 5)] =
      .ok ("INSERT INTO " ++ escapeId "t" ++ " (" ++
             joinSep ", " [escapeId "name", escapeId "age"] ++ ") VALUES (" ++
             joinSep ", " ["?", "?"] ++ ")",
           [JsValue.str "a", JsValue.num 5]) :=
  (spec_C3 "t" [("name", JsValue.str "a"), ("age", JsValue.num 5)]
    (by decide) (by simp)).1

/-- C4: when the update item has a truthy `_id`, the `_id` key is dropped
from the SET clause and its value becomes the last positional parameter of
the `WHERE _id = ?` clause, the other parameters being the values of the
non-`_id` entries in order; an item with no key other than `_id` is
rejected with the "no fields to update" validation error; and update of
`{_id: 7, name: "b"}` on table `t` produces
`` UPDATE `t` SET `name` = ? WHERE _id = ? `` with params `["b", 7]`. -/
theorem spec_C4 (collectionName : String) (item : JsObject)
    (hc : collectionName ≠ "")
    (hid : truthy (getProp item "_id") = true)
    (hnd : (objKeys item).Nodup) :
    (∀ k ks, (objKeys item).filter (fun k => k != "_id") = k :: ks →
       dataUpdateQuery collectionName item =
         .ok ("UPDATE " ++ escapeId collectionName ++ " SET " ++
                joinSep ", " ((k :: ks).map (fun k => escapeId k ++ " = ?")) ++
                " WHERE _id = ?",
              objValues (item.filter (fun kv => kv.1 != "_id")) ++
                [getProp item "_id"])) ∧
    ((objKeys item).filter (fun k => k != "_id") = [] →
       dataUpdateQuery collectionName item = .error "Nenhum campo para atualizar") ∧
    dataUpdateQuery "t" [("_id", JsValue.num 7), ("name", JsValue.str "b")] =
      .ok ("UPDATE `t` SET `name` = ? WHERE _id = ?",
           [JsValue.str "b", JsValue.num 7]) := by
  refine ⟨?_, ?_, rfl⟩
  · intro k ks hfilter
    have hne : joinSep ", " (((objKeys item).filter (fun k => k != "_id")).map
        (fun k => escapeId k ++ " = ?")) ≠ "" := by
      rw [hfilter, List.map_cons]
      exact joinSep_cons_ne_empty _ _ _
        (by have h4 : (" = ?" : String).length = 4 := rfl
            simp only [String.length_append, h4]; omega)
    simp only [dataUpdateQuery, if_neg hc, hid, Bool.not_true, Bool.false_eq_true,
      if_false, if_neg hne]
    rw [hfilter, eraseIdx_keyIndex item hnd]
  · intro hfilter
    simp only [dataUpdateQuery, if_neg hc, hid, Bool.not_true, Bool.false_eq_true,
      if_false, hfilter]
    simp [joinSep]

/-- C4, witness at item `{_id: 7, name: "b"}`, table `t`. -/
theorem spec_C4_witness :
    dataUpdateQuery "t" [("_id", JsValue.num 7), ("name", JsValue.str "b")] =
      .ok ("UPDATE " ++ escapeId "t" ++ " SET " ++
             joinSep ", " [escapeId "name" ++ " = ?"] ++ " WHERE _id = ?",
           objValues ([("_id", JsValue.num 7), ("name", JsValue.str "b")].filter
             (fun kv => kv.1 != "_id")) ++
             [getProp [("_id", JsValue.num 7), ("name", JsValue.str "b")] "_id"]) :=
  (spec_C4 "t" [("_id", JsValue.num 7), ("name", JsValue.str "b")]
    (by decide) (by decide) (by decide)).1 "name" [] (by decide)

/-- C5: both data/find variants append the `LIMIT ?, ?` pagination clause,
with `skip` and `limit` pushed as the trailing parameters, exactly when
both `skip` and `limit` are numbers; when either is missing or non-numeric
the emitted statement is exactly the pagination-free one. -/
theorem spec_C5 (c : String) (filter : Option JsObject)
    (sf : Option StructuredFilter) (sort : Option (List SortEntry))
    (skip limit : JsValue) (core : String × List JsValue)
    (hc : c ≠ "") (hcore : dataFindStructuredCore c sf sort = .ok core) :
    ((isNumber skip && isNumber limit) = true →
       dataFindFlatQuery c filter sort skip limit =
         .ok ((dataFindFlatCore c filter sort).1 ++ " LIMIT ?, ?",
              (dataFindFlatCore c filter sort).2 ++ [skip, limit]) ∧
       dataFindStructuredQuery c sf sort skip limit =
         .ok (core.1 ++ " LIMIT ?, ?", core.2 ++ [skip, limit])) ∧
    ((isNumber skip && isNumber limit) = false →
       dataFindFlatQuery c filter sort skip limit =
         .ok (dataFindFlatCore c filter sort) ∧
       dataFindStructuredQuery c sf sort skip limit = .ok core) := by
  constructor <;> intro h <;>
    simp [dataFindFlatQuery, dataFindStructuredQuery, applyPagination, hc, hcore, h]

/-- C5, witness: on table `t` with no filter and no sort, numeric skip and
limit get the pagination clause, while a numeric skip with a missing limit
leaves the statement untouched. -/
theorem spec_C5_witness :
    (dataFindFlatQuery "t" none none (JsValue.num 2) (JsValue.num 10) =
       .ok ((dataFindFlatCore "t" none none).1 ++ " LIMIT ?, ?",
            (dataFindFlatCore "t" none none).2 ++ [JsValue.num 2, JsValue.num 10])) ∧
    (dataFindFlatQuery "t" none none (JsValue.num 2) JsValue.undefined =
       .ok (dataFindFlatCore "t" none none)) :=
  ⟨((spec_C5 "t" none none none (JsValue.num 2) (JsValue.num 10)
      ("SELECT * FROM `t`", []) (by decide) rfl).1 (by decide)).1,
   ((spec_C5 "t" none none none (JsValue.num 2) JsValue.undefined
      ("SELECT * FROM `t`", []) (by decide) rfl).2 (by decide)).1⟩

/-- C6: the schema type classification is substring matching on the
lowercased native type, in source order — `int` gives number; otherwise
`varchar`/`text`/`char` gives text; otherwise `date`/`time` gives
datetime; otherwise `float`/`double`/`decimal` gives number; otherwise
`bool` gives boolean; a type containing none of these gives `any` — and
the column `{Field:"age", Type:"int(11)", Null:"NO", Key:""}` maps to a
field schema with type number, required true, unique false. -/
theorem spec_C6 :
    (∀ s : String,
      (strIncludes (lowerCase s) "int" = true → mapMySQLTypeToWixType s = "number") ∧
      (strIncludes (lowerCase s) "int" = false →
        (strIncludes (lowerCase s) "varchar" || strIncludes (lowerCase s) "text" ||
            strIncludes (lowerCase s) "char") = true →
        mapMySQLTypeToWixType s = "text") ∧
      (strIncludes (lowerCase s) "int" = false →
        (strIncludes (lowerCase s) "varchar" || strIncludes (lowerCase s) "text" ||
            strIncludes (lowerCase s) "char") = false →
        (strIncludes (lowerCase s) "date" || strIncludes (lowerCase s) "time") = true →
        mapMySQLTypeToWixType s = "datetime") ∧
      (strIncludes (lowerCase s) "int" = false →
        (strIncludes (lowerCase s) "varchar" || strIncludes (lowerCase s) "text" ||
            strIncludes (lowerCase s) "char") = false →
        (strIncludes (lowerCase s) "date" || strIncludes (lowerCase s) "time") = false →
        (strIncludes (lowerCase s) "float" || strIncludes (lowerCase s) "double" ||
            strIncludes (lowerCase s) "decimal") = true →
        mapMySQLTypeToWixType s = "number") ∧
      (strIncludes (lowerCase s) "int" = false →
        (strIncludes (lowerCase s) "varchar" || strIncludes (lowerCase s) "text" ||
            strIncludes (lowerCase s) "char") = false →
        (strIncludes (lowerCase s) "date" || strIncludes (lowerCase s) "time") = false →
        (strIncludes (lowerCase s) "float" || strIncludes (lowerCase s) "double" ||
            strIncludes (lowerCase s) "decimal") = false →
        strIncludes (lowerCase s) "bool" = true →
        mapMySQLTypeToWixType s = "boolean") ∧
      (strIncludes (lowerCase s) "int" = false →
        (strIncludes (lowerCase s) "varchar" || strIncludes (lowerCase s) "text" ||
            strIncludes (lowerCase s) "char") = false →
        (strIncludes (lowerCase s) "date" || strIncludes (lowerCase s) "time") = false →
        (strIncludes (lowerCase s) "float" || strIncludes (lowerCase s) "double" ||
            strIncludes (lowerCase s) "decimal") = false →
        strIncludes (lowerCase s) "bool" = false →
        mapMySQLTypeToWixType s = "any")) ∧
    (mapColumnToField ⟨"age", "int(11)", "NO", ""⟩).2.type = "number" ∧
    (mapColumnToField ⟨"age", "int(11)", "NO", ""⟩).2.required = true ∧
    (mapColumnToField ⟨"age", "int(11)", "NO", ""⟩).2.unique = false := by
  refine ⟨fun s => ?_, by decide, by decide, by decide⟩
  refine ⟨fun h1 => ?_, fun h1 h2 => ?_, fun h1 h2 h3 => ?_,
    fun h1 h2 h3 h4 => ?_, fun h1 h2 h3 h4 h5 => ?_, fun h1 h2 h3 h4 h5 => ?_⟩
  · simp [mapMySQLTypeToWixType, h1]
  · simp only [Bool.or_eq_true] at h2
    simp [mapMySQLTypeToWixType, h1]
    rcases h2 with (h | h) | h <;> simp [h]
  · simp only [Bool.or_eq_false_iff] at h2
    simp only [Bool.or_eq_true] at h3
    rcases h2 with ⟨⟨hv, ht⟩, hch⟩
    simp only [mapMySQLTypeToWixType, h1, hv, ht, hch, Bool.or_self, Bool.or_false,
      Bool.false_eq_true, if_false]
    rcases h3 with h | h <;> simp [h]
  · simp only [Bool.or_eq_false_iff] at h2 h3
    rcases h2 with ⟨⟨hv, ht⟩, hch⟩
    rcases h3 with ⟨hd, hti⟩
    have hdt : strIncludes (lowerCase s) "datetime" = false := by
      cases hx : strIncludes (lowerCase s) "datetime" with
      | false => rfl
      | true => rw [strIncludes_time_of_datetime _ hx] at hti; exact hti
    simp only [Bool.or_eq_true] at h4
    simp only [mapMySQLTypeToWixType, h1, hv, ht, hch, hd, hti, hdt, Bool.or_self,
      Bool.or_false, Bool.false_eq_true, if_false]
    rcases h4 with (h | h) | h <;> simp [h]
  · simp only [Bool.or_eq_false_iff] at h2 h3 h4
    rcases h2 with ⟨⟨hv, ht⟩, hch⟩
    rcases h3 with ⟨hd, hti⟩
    rcases h4 with ⟨⟨hf, hdo⟩, hde⟩
    have hdt : strIncludes (lowerCase s) "datetime" = false := by
      cases hx : strIncludes (lowerCase s) "datetime" with
      | false => rfl
      | true => rw [strIncludes_time_of_datetime _ hx] at hti; exact hti
    simp [mapMySQLTypeToWixType, h1, hv, ht, hch, hd, hti, hdt, hf, hdo, hde, h5]
  · simp only [Bool.or_eq_false_iff] at h2 h3 h4
    rcases h2 with ⟨⟨hv, ht⟩, hch⟩
    rcases h3 with ⟨hd, hti⟩
    rcases h4 with ⟨⟨hf, hdo⟩, hde⟩
    have hdt : strIncludes (lowerCase s) "datetime" = false := by
      cases hx : strIncludes (lowerCase s) "datetime" with
      | false => rfl
      | true => rw [strIncludes_time_of_datetime _ hx] at hti; exact hti
    simp [mapMySQLTypeToWixType, h1, hv, ht, hch, hd, hti, hdt, hf, hdo, hde, h5]

/-- C6, witness: the classification applied to the concrete types
`int(11)` (number) and `blob` (any). -/
theorem spec_C6_witness :
    mapMySQLTypeToWixType "int(11)" = "number" ∧
    mapMySQLTypeToWixType "blob" = "any" :=
  ⟨(spec_C6.1 "int(11)").1 (by decide),
   (spec_C6.1 "blob").2.2.2.2.2 (by decide) (by decide) (by decide) (by decide)
     (by decide)⟩

/-- C9: whenever a connection is acquired, `executeQuery` attempts to
release it on every path; the result the caller sees is the statement's
own outcome — unchanged by the release outcome: a statement error is
re-thrown as is, a success stays the resolved rows (`rows || []`). -/
theorem spec_C9 (env : DbEnv) (h : env.acquire = .ok ()) :
    (executeQuery env).released = true ∧
    (∀ rel : Except String Unit,
       (executeQuery { env with release := rel }).result = (executeQuery env).result) ∧
    (∀ e, env.exec = .error e → (executeQuery env).result = .error e) ∧
    (∀ r, env.exec = .ok r → (executeQuery env).result = .ok (r.getD [])) := by
  obtain ⟨acq, exec, rel⟩ := env
  cases h
  refine ⟨?_, fun rel' => ?_, fun e he => ?_, fun r hr => ?_⟩
  · cases rel <;> simp [executeQuery, releaseOutcome]
  · cases rel <;> cases rel' <;> simp [executeQuery, releaseOutcome]
  · cases he; cases rel <;> simp [executeQuery, releaseOutcome]
  · cases hr; cases rel <;> simp [executeQuery, releaseOutcome]

/-- C9, witness: a failing statement together with a failing release —
the connection is still released and the caller still sees the original
statement error. -/
theorem spec_C9_witness :
    (executeQuery ⟨.ok (), .error "db down", .error "release failed"⟩).released = true ∧
    (executeQuery ⟨.ok (), .error "db down", .error "release failed"⟩).result =
      .error "db down" :=
  ⟨(spec_C9 ⟨.ok (), .error "db down", .error "release failed"⟩ rfl).1,
   (spec_C9 ⟨.ok (), .error "db down", .error "release failed"⟩ rfl).2.2.1
     "db down" rfl⟩

/-- C10: a sort entry's ORDER BY token is the escaped field identifier
followed by `ASC` exactly when the direction is the string `'ASC'`, and by
`DESC` for every other direction value; the data/find builder joins these
tokens into its ORDER BY clause. -/
theorem spec_C10 (fieldName : String) (direction : JsValue) (c : String)
    (s : List SortEntry) (hc : c ≠ "") (hs : s ≠ []) :
    (direction = JsValue.str "ASC" →
       sortToken ⟨fieldName, direction⟩ = escapeId fieldName ++ " ASC") ∧
    (direction ≠ JsValue.str "ASC" →
       sortToken ⟨fieldName, direction⟩ = escapeId fieldName ++ " DESC") ∧
    sqlOf (dataFindFlatQuery c none (some s) JsValue.undefined JsValue.undefined) =
      some ("SELECT * FROM " ++ escapeId c ++ " ORDER BY " ++
              joinSep ", " (s.map sortToken)) := by
  refine ⟨fun h => ?_, fun h => ?_, ?_⟩
  · subst h
    show escapeId fieldName ++ " " ++ (if isStrEq (JsValue.str "ASC") "ASC" then "ASC" else "DESC") =
      escapeId fieldName ++ " ASC"
    rw [show isStrEq (JsValue.str "ASC") "ASC" = true from rfl, if_pos rfl,
      String.append_assoc, show (" " ++ "ASC" : String) = " ASC" by decide]
  · have hfalse : isStrEq direction "ASC" = false := by
      cases direction with
      | str t =>
          simp only [isStrEq]
          exact beq_eq_false_iff_ne.mpr (fun ht => h (by rw [ht]))
      | undefined => rfl
      | null => rfl
      | bool b => rfl
      | num n => rfl
      | arr l => rfl
    show escapeId fieldName ++ " " ++ (if isStrEq direction "ASC" then "ASC" else "DESC") =
      escapeId fieldName ++ " DESC"
    rw [hfalse, if_neg (by simp), String.append_assoc,
      show (" " ++ "DESC" : String) = " DESC" by decide]
  · cases s with
    | nil => exact absurd rfl hs
    | cons e es =>
        simp [dataFindFlatQuery, dataFindFlatCore, flatFilterClause, sortClause,
          applyPagination, isNumber, sqlOf, hc, String.append_assoc]

/-- C10, witness: direction `'ASC'` ascends, direction `'asc'`
(unrecognized: the comparison is case-sensitive) descends. -/
theorem spec_C10_witness :
    sortToken ⟨"a", JsValue.str "ASC"⟩ = escapeId "a" ++ " ASC" ∧
    sortToken ⟨"a", JsValue.str "asc"⟩ = escapeId "a" ++ " DESC" :=
  ⟨(spec_C10 "a" (JsValue.str "ASC") "t" [⟨"a", JsValue.str "ASC"⟩]
      (by decide) (by simp)).1 rfl,
   (spec_C10 "a" (JsValue.str "asc") "t" [⟨"a", JsValue.str "asc"⟩]
      (by decide) (by simp)).2.1 (by simp)⟩

/-- A database holding exactly one table `products`: `DESCRIBE` of it
resolves with its column rows, `DESCRIBE` of any other table name errors
with ER_NO_SUCH_TABLE (the MySQL behaviour that `executeQuery` re-throws,
part_000 lines 17-19). -/
def productsOnlyDescribe : DescribeOracle := fun t =>
  if t == "products" then .ok (.rows [⟨"id", "int(11)", "NO", "PRI"⟩])
  else .error "ER_NO_SUCH_TABLE"

/-- C7: against a database holding only `products`, a schemas/find request
naming `products` and a missing table does not skip the missing table and
answer with the existing one — the thrown DESCRIBE error reaches the outer
catch and the whole request fails with the 500 response, contradicting the
skip-and-continue branch's own comment (server.js lines 115-119). -/
theorem spec_C7 :
    schemasFindHandler productsOnlyDescribe ["products", "missing"] =
      .internalError "Erro interno do servidor" ∧
    schemasFindHandler productsOnlyDescribe ["products", "missing"] ≠
      .ok [{ displayName := "products", id := "products" }] := by
  refine ⟨rfl, ?_⟩
  have he : schemasFindHandler productsOnlyDescribe ["products", "missing"] =
      .internalError "Erro interno do servidor" := rfl
  rw [he]
  intro h
  exact SchemasResponse.noConfusion h

/-- Reassociating one step of a left-nested string concatenation so two
adjacent literals can be merged. -/
lemma appendPair (x : String) (a b c : String) (h : a ++ b = c) :
    x ++ a ++ b = x ++ c := by
  rw [String.append_assoc, h]

/-- The row-membership reading of the generated condition
`` `field` IN (v1, ..., vn) ``: a candidate value satisfies it exactly when
it equals one of the listed values. -/
def inClauseSat (vs : List JsValue) (x : JsValue) : Prop := x ∈ vs

/-- C8: a `$hasSome` filter whose value is the empty array is not rejected;
the builder deterministically translates it to the empty IN-list
`` WHERE `field` IN () `` with no parameters — an IN-clause that no value
satisfies. -/
theorem spec_C8 (c fn : String) (sk l : JsValue) (hc : c ≠ "") :
    dataFindStructuredQuery c
        (some ⟨JsValue.str "$hasSome", fn, JsValue.arr []⟩) none sk l =
      .ok (applyPagination
        ("SELECT * FROM " ++ escapeId c ++ " WHERE " ++ escapeId fn ++ " IN ()", [])
        sk l) ∧
    (∀ x : JsValue, ¬ inClauseSat [] x) := by
  constructor
  · have hbools1 : (!(("$hasSome" : String) == "$hasSome") &&
        !(("$hasSome" : String) == "$eq")) = false := by decide
    have hbools2 : (("$hasSome" : String) == "$hasSome") = true := by decide
    simp only [dataFindStructuredQuery, dataFindStructuredCore, isStrEq, if_neg hc,
      List.map_nil, joinSep, sortClause, hbools1, hbools2, Bool.not_true,
      Bool.false_and, Bool.false_eq_true, if_false, if_true, String.append_empty]
    rw [appendPair _ " IN (" ")" " IN ()" (by decide)]
  · intro x hx
    exact List.not_mem_nil x hx

/-- C8, witness at table `t`, field `f`, no pagination. -/
theorem spec_C8_witness :
    dataFindStructuredQuery "t"
        (some ⟨JsValue.str "$hasSome", "f", JsValue.arr []⟩) none
        JsValue.undefined JsValue.undefined =
      .ok (applyPagination
        ("SELECT * FROM " ++ escapeId "t" ++ " WHERE " ++ escapeId "f" ++ " IN ()", [])
        JsValue.undefined JsValue.undefined) ∧
    ¬ inClauseSat [] (JsValue.num 1) :=
  ⟨(spec_C8 "t" "f" JsValue.undefined JsValue.undefined (by decide)).1,
   (spec_C8 "t" "f" JsValue.undefined JsValue.undefined (by decide)).2 (JsValue.num 1)⟩

/-- C2: a non-empty flat mapping filter becomes a WHERE conjunction of one
`` `key` = ? `` equality per entry with the values as positional
parameters, in both the find and the count builder; the structured filter
of the part_000 find builder translates exactly `$eq` (to
`` `field` = ? ``) and `$hasSome` over an array (to an IN-list with one
placeholder per element); every other operator is rejected with the
"Operador de filtro inválido" validation error. -/
theorem spec_C2 :
    (∀ (c : String) (f : JsObject) (sort : Option (List SortEntry)) (sk l : JsValue),
       c ≠ "" → f ≠ [] →
       dataFindFlatQuery c (some f) sort sk l =
         .ok (applyPagination
           ("SELECT * FROM " ++ escapeId c ++ " WHERE " ++
              joinSep " AND " (f.map (fun kv => escapeId kv.1 ++ " = ?")) ++
              sortClause sort,
            objValues f) sk l)) ∧
    (∀ (c : String) (f : JsObject), c ≠ "" → f ≠ [] →
       dataCountQuery c (some f) =
         .ok ("SELECT COUNT(*) AS totalCount FROM " ++ escapeId c ++ " WHERE " ++
                joinSep " AND " (f.map (fun kv => escapeId kv.1 ++ " = ?")),
              objValues f)) ∧
    (∀ (c fn : String) (v : JsValue) (sort : Option (List SortEntry)) (sk l : JsValue),
       c ≠ "" →
       dataFindStructuredQuery c (some ⟨JsValue.str "$eq", fn, v⟩) sort sk l =
         .ok (applyPagination
           ("SELECT * FROM " ++ escapeId c ++ " WHERE " ++ escapeId fn ++ " = ?" ++
              sortClause sort, [v]) sk l)) ∧
    (∀ (c fn : String) (vs : List JsValue) (sort : Option (List SortEntry)) (sk l : JsValue),
       c ≠ "" →
       dataFindStructuredQuery c (some ⟨JsValue.str "$hasSome", fn, JsValue.arr vs⟩)
           sort sk l =
         .ok (applyPagination
           ("SELECT * FROM " ++ escapeId c ++ " WHERE " ++ escapeId fn ++ " IN (" ++
              joinSep "," (vs.map (fun _ => "?")) ++ ")" ++ sortClause sort, vs) sk l)) ∧
    (∀ (c : String) (op : JsValue) (fn : String) (v : JsValue)
       (sort : Option (List SortEntry)) (sk l : JsValue),
       c ≠ "" → isStrEq op "$eq" = false → isStrEq op "$hasSome" = false →
       dataFindStructuredQuery c (some ⟨op, fn, v⟩) sort sk l =
         .error "Operador de filtro inválido") := by
  have heqSome : (("$eq" : String) == "$hasSome") = false := by decide
  have heqEq : (("$eq" : String) == "$eq") = true := by decide
  have hsomeSome : (("$hasSome" : String) == "$hasSome") = true := by decide
  refine ⟨?_, ?_, ?_, ?_, ?_⟩
  · intro c f sort sk l hc hf
    have hlen : 0 < f.length := List.length_pos.mpr hf
    simp [dataFindFlatQuery, dataFindFlatCore, flatFilterClause, hc, hlen,
      String.append_assoc]
  · intro c f hc hf
    have hlen : 0 < f.length := List.length_pos.mpr hf
    simp [dataCountQuery, flatFilterClause, hc, hlen, String.append_assoc]
  · intro c fn v sort sk l hc
    simp [dataFindStructuredQuery, dataFindStructuredCore, isStrEq, hc,
      heqSome, heqEq, String.append_assoc]
  · intro c fn vs sort sk l hc
    simp [dataFindStructuredQuery, dataFindStructuredCore, isStrEq, hc,
      hsomeSome, String.append_assoc]
  · intro c op fn v sort sk l hc hop1 hop2
    simp [dataFindStructuredQuery, dataFindStructuredCore, hc, hop1, hop2]

/-- C2, witness: a one-entry flat filter on the find and count builders, an
`$eq` clause, a two-element `$hasSome` clause, and a rejected `$lt`
clause. -/
theorem spec_C2_witness :
    dataFindFlatQuery "t" (some [("a", JsValue.num 1)]) none JsValue.undefined JsValue.undefined =
      .ok (applyPagination
        ("SELECT * FROM " ++ escapeId "t" ++ " WHERE " ++
           joinSep " AND " ([("a", JsValue.num 1)].map (fun kv => escapeId kv.1 ++ " = ?")) ++
           sortClause none,
         objValues [("a", JsValue.num 1)]) JsValue.undefined JsValue.undefined) ∧
    dataFindStructuredQuery "t"
        (some ⟨JsValue.str "$hasSome", "f", JsValue.arr [JsValue.num 1, JsValue.num 2]⟩)
        none JsValue.undefined JsValue.undefined =
      .ok (applyPagination
        ("SELECT * FROM " ++ escapeId "t" ++ " WHERE " ++ escapeId "f" ++ " IN (" ++
           joinSep "," ([JsValue.num 1, JsValue.num 2].map (fun _ => "?")) ++ ")" ++
           sortClause none, [JsValue.num 1, JsValue.num 2])
        JsValue.undefined JsValue.undefined) ∧
    dataFindStructuredQuery "t" (some ⟨JsValue.str "$lt", "f", JsValue.num 3⟩)
        none JsValue.undefined JsValue.undefined =
      .error "Operador de filtro inválido" :=
  ⟨spec_C2.1 "t" [("a", JsValue.num 1)] none JsValue.undefined JsValue.undefined
     (by decide) (by simp),
   spec_C2.2.2.2.1 "t" "f" [JsValue.num 1, JsValue.num 2] none JsValue.undefined JsValue.undefined
     (by decide),
   spec_C2.2.2.2.2 "t" (JsValue.str "$lt") "f" (JsValue.num 3) none JsValue.undefined
     JsValue.undefined (by decide) (by decide) (by decide)⟩

/-- C1: in every structured CRUD builder, filter and payload values reach
the statement only through the positional parameter list (the parameter
list is exactly the input values, in order, with pagination values last),
and the SQL text never embeds a value: it is unchanged when the values are
replaced (same keys, respectively same element count), identifiers entering
it only through `escapeId`. -/
theorem spec_C1 :
    (∀ (c : String) (f g : JsObject) (sort : Option (List SortEntry)) (sk l : JsValue),
       c ≠ "" → f ≠ [] →
       paramsOf (dataFindFlatQuery c (some f) sort sk l) =
         some (objValues f ++
           (if isNumber sk && isNumber l then [sk, l] else [])) ∧
       (objKeys f = objKeys g →
         sqlOf (dataFindFlatQuery c (some f) sort sk l) =
           sqlOf (dataFindFlatQuery c (some g) sort sk l))) ∧
    (∀ (c : String) (f g : JsObject), c ≠ "" → f ≠ [] →
       paramsOf (dataCountQuery c (some f)) = some (objValues f) ∧
       (objKeys f = objKeys g →
         sqlOf (dataCountQuery c (some f)) = sqlOf (dataCountQuery c (some g)))) ∧
    (∀ (t : String) (f g : JsObject) (lim off : JsValue),
       (itemsFindQuery t (some f) lim off).2 =
         objValues f ++ (if truthy lim then [lim] else []) ++
           (if truthy off then [off] else []) ∧
       (objKeys f = objKeys g →
         (itemsFindQuery t (some f) lim off).1 = (itemsFindQuery t (some g) lim off).1)) ∧
    (∀ (c : String) (p q : JsObject), c ≠ "" → p ≠ [] →
       paramsOf (dataInsertQuery c p) = some (objValues p) ∧
       (objKeys p = objKeys q →
         sqlOf (dataInsertQuery c p) = sqlOf (dataInsertQuery c q))) ∧
    (∀ (c : String) (item : JsObject), c ≠ "" →
       truthy (getProp item "_id") = true → (objKeys item).Nodup →
       ∀ sql params, dataUpdateQuery c item = .ok (sql, params) →
         params = objValues (item.filter (fun kv => kv.1 != "_id")) ++
           [getProp item "_id"] ∧
         sql = "UPDATE " ++ escapeId c ++ " SET " ++
           joinSep ", " (((objKeys item).filter (fun k => k != "_id")).map
             (fun k => escapeId k ++ " = ?")) ++ " WHERE _id = ?") ∧
    (∀ (c : String) (itemId : JsValue), c ≠ "" → truthy itemId = true →
       dataRemoveQuery c itemId =
         .ok ("DELETE FROM " ++ escapeId c ++ " WHERE _id = ?", [itemId])) ∧
    (∀ (c fn : String) (v w : JsValue) (sort : Option (List SortEntry)) (sk l : JsValue),
       c ≠ "" →
       paramsOf (dataFindStructuredQuery c (some ⟨JsValue.str "$eq", fn, v⟩) sort sk l) =
         some ([v] ++ (if isNumber sk && isNumber l then [sk, l] else [])) ∧
       sqlOf (dataFindStructuredQuery c (some ⟨JsValue.str "$eq", fn, v⟩) sort sk l) =
         sqlOf (dataFindStructuredQuery c (some ⟨JsValue.str "$eq", fn, w⟩) sort sk l)) ∧
    (∀ (c fn : String) (vs ws : List JsValue) (sort : Option (List SortEntry))
       (sk l : JsValue), c ≠ "" →
       paramsOf (dataFindStructuredQuery c
           (some ⟨JsValue.str "$hasSome", fn, JsValue.arr vs⟩) sort sk l) =
         some (vs ++ (if isNumber sk && isNumber l then [sk, l] else [])) ∧
       (vs.length = ws.length →
         sqlOf (dataFindStructuredQuery c
             (some ⟨JsValue.str "$hasSome", fn, JsValue.arr vs⟩) sort sk l) =
           sqlOf (dataFindStructuredQuery c
             (some ⟨JsValue.str "$hasSome", fn, JsValue.arr ws⟩) sort sk l))) := by
  have heqSome : (("$eq" : String) == "$hasSome") = false := by decide
  have heqEq : (("$eq" : String) == "$eq") = true := by decide
  have hsomeSome : (("$hasSome" : String) == "$hasSome") = true := by decide
  refine ⟨?_, ?_, ?_, ?_, ?_, ?_, ?_, ?_⟩
  · intro c f g sort sk l hc hf
    have hlen : 0 < f.length := List.length_pos.mpr hf
    constructor
    · by_cases hnum : (isNumber sk && isNumber l) = true <;>
        simp [dataFindFlatQuery, dataFindFlatCore, flatFilterClause, applyPagination,
          paramsOf, hc, hlen, hnum]
    · intro hkeys
      have hmap := map_key_eq (fun k => escapeId k ++ " = ?") hkeys
      have hlen2 := length_eq_of_keys_eq hkeys
      have hleng : 0 < g.length := hlen2 ▸ hlen
      by_cases hnum : (isNumber sk && isNumber l) = true <;>
        simp [dataFindFlatQuery, dataFindFlatCore, flatFilterClause, applyPagination,
          sqlOf, hc, hmap, hlen2, hleng, hnum]
  · intro c f g hc hf
    have hlen : 0 < f.length := List.length_pos.mpr hf
    refine ⟨by simp [dataCountQuery, flatFilterClause, paramsOf, hc, hlen], ?_⟩
    intro hkeys
    have hmap := map_key_eq (fun k => escapeId k ++ " = ?") hkeys
    have hlen2 := length_eq_of_keys_eq hkeys
    have hleng : 0 < g.length := hlen2 ▸ hlen
    simp [dataCountQuery, flatFilterClause, sqlOf, hc, hmap, hlen2, hleng]
  · intro t f g lim off
    constructor
    · by_cases h1 : truthy lim = true <;> by_cases h2 : truthy off = true <;>
        simp [itemsFindQuery, h1, h2, objValues]
    · intro hkeys
      have hmap := map_key_eq (fun k => escapeId k ++ " = ?") hkeys
      by_cases h1 : truthy lim = true <;> by_cases h2 : truthy off = true <;>
        simp [itemsFindQuery, h1, h2, hmap]
  · intro c p q hc hp
    have hlen : p.length ≠ 0 := by simpa [List.length_eq_zero] using hp
    refine ⟨by simp [dataInsertQuery, paramsOf, hc, hlen], ?_⟩
    intro hkeys
    have hmap := map_key_eq (fun k => escapeId k) hkeys
    have hlen2 := length_eq_of_keys_eq hkeys
    have hlenq : q.length ≠ 0 := by rw [← hlen2]; exact hlen
    have hph : p.map (fun _ : String × JsValue => "?") =
        q.map (fun _ : String × JsValue => "?") := by
      rw [List.map_const', List.map_const', hlen2]
    simp [dataInsertQuery, sqlOf, hc, hlen, hlenq, hmap, hph]
  · intro c item hc hid hnd sql params hok
    simp only [dataUpdateQuery, if_neg hc, hid, Bool.not_true, Bool.false_eq_true,
      if_false] at hok
    by_cases hemp : joinSep ", " (((objKeys item).filter (fun k => k != "_id")).map
        (fun k => escapeId k ++ " = ?")) = ""
    · rw [if_pos hemp] at hok
      exact absurd hok (by simp)
    · rw [if_neg hemp] at hok
      have hpair := Except.ok.inj hok
      have hsql := congrArg Prod.fst hpair
      have hparams := congrArg Prod.snd hpair
      simp only at hsql hparams
      refine ⟨?_, hsql.symm⟩
      rw [← hparams, eraseIdx_keyIndex item hnd]
  · intro c itemId hc hid
    simp [dataRemoveQuery, hc, hid]
  · intro c fn v w sort sk l hc
    constructor
    · by_cases hnum : (isNumber sk && isNumber l) = true <;>
        simp [dataFindStructuredQuery, dataFindStructuredCore, applyPagination,
          paramsOf, isStrEq, hc, heqSome, heqEq, hnum]
    · by_cases hnum : (isNumber sk && isNumber l) = true <;>
        simp [dataFindStructuredQuery, dataFindStructuredCore, applyPagination,
          sqlOf, isStrEq, hc, heqSome, heqEq, hnum]
  · intro c fn vs ws sort sk l hc
    constructor
    · by_cases hnum : (isNumber sk && isNumber l) = true <;>
        simp [dataFindStructuredQuery, dataFindStructuredCore, applyPagination,
          paramsOf, isStrEq, hc, hsomeSome, hnum]
    · intro hlenvw
      have hph : vs.map (fun _ : JsValue => "?") = ws.map (fun _ : JsValue => "?") := by
        rw [List.map_const', List.map_const', hlenvw]
      by_cases hnum : (isNumber sk && isNumber l) = true <;>
        simp [dataFindStructuredQuery, dataFindStructuredCore, applyPagination,
          sqlOf, isStrEq, hc, hsomeSome, hnum, hph]

/-- C1, witness: the flat find builder on a one-entry filter (its value as
the single parameter, SQL unchanged when the value changes), the insert
builder, and the remove builder, at concrete inputs. -/
theorem spec_C1_witness :
    paramsOf (dataFindFlatQuery "t" (some [("a", JsValue.num 1)]) none
        JsValue.undefined JsValue.undefined) =
      some (objValues [("a", JsValue.num 1)] ++
        (if isNumber JsValue.undefined && isNumber JsValue.undefined then
           [JsValue.undefined, JsValue.undefined] else [])) ∧
    sqlOf (dataFindFlatQuery "t" (some [("a", JsValue.num 1)]) none
        JsValue.undefined JsValue.undefined) =
      sqlOf (dataFindFlatQuery "t" (some [("a", JsValue.num 2)]) none
        JsValue.undefined JsValue.undefined) ∧
    paramsOf (dataInsertQuery "t" [("name", JsValue.str "a"), ("age", JsValue.num 5)]) =
      some (objValues [("name", JsValue.str "a"), ("age", JsValue.num 5)]) ∧
    dataRemoveQuery "t" (JsValue.num 9) =
      .ok ("DELETE FROM " ++ escapeId "t" ++ " WHERE _id = ?", [JsValue.num 9]) :=
  ⟨(spec_C1.1 "t" [("a", JsValue.num 1)] [("a", JsValue.num 2)] none
      JsValue.undefined JsValue.undefined (by decide) (by simp)).1,
   (spec_C1.1 "t" [("a", JsValue.num 1)] [("a", JsValue.num 2)] none
      JsValue.undefined JsValue.undefined (by decide) (by simp)).2 rfl,
   (spec_C1.2.2.2.1 "t" [("name", JsValue.str "a"), ("age", JsValue.num 5)]
      [("name", JsValue.str "a"), ("age", JsValue.num 5)] (by decide) (by simp)).1,
   spec_C1.2.2.2.2.2.1 "t" (JsValue.num 9) (by decide) (by decide)⟩

end WixMysql
